import Mathlib

/-!
# Verification of the ytdpnl-extension event-delivery subsystem

Shallow embedding of `src/api.ts` (event delivery pipeline, durable queue
store, session coordinator, retry scheduler) together with the storage
helpers of `src/lib.ts`, and proofs of the specified properties.

Modelling conventions:
* JS `Date` values are modelled as epoch-millisecond integers (`Int`), so the
  `new Date(e.lastAttempt)` reconstruction on load is the identity map.
* `localStorage` / `sessionStorage` reads through `getFromLocalStorage` /
  `getFromSessionStorage` (lib.ts) never return the empty string (the source
  returns the value only when truthy, else `null`), so they are modelled as
  `Option String` where `none` covers both an absent key and a falsy value.
* Promises are modelled by explicit sequencing: an `async` function is a pure
  function of the state together with an oracle giving the eventual outcome of
  the network call it awaits; the single-flight promise handle is an
  `Option Nat` promise id.
-/

namespace Ytdpnl

/-- Modelled from the spec: the `Maybe` result type of the HTTP verbs built by
`makeApiVerbCreator` in `common/util` (that file is not under `src/`): a
success carrying a value, or a structured failure carrying a machine-readable
code and a human-readable message; transport errors also surface as failures
(spec §6: "any other failure or transport error is treated as retryable
failure"). -/
inductive Maybe (α : Type) where
  | success (value : α)
  | failure (code : String) (message : String)
deriving DecidableEq, Repr

/-- Model of `common/models/session`: a server-issued session record; `api.ts` only
reads its `uuid` field (`res.value.uuid`). -/
structure Session where
  uuid : String
deriving DecidableEq, Repr

/-- Model of `common/models/event` (modelled from the spec §3 and the fields `api.ts`
reads and writes): type tag, local deduplication id, lazily filled session id
(`""` = not yet assigned, the source tests `event.sessionUuid === ''`), page
url (`""` = absent, the source tests `!event.url`), optional context
(`inputEvent.context ?? document.referrer` distinguishes only
null/undefined), client version and tab-active flag. -/
structure Event where
  type : String
  localUuid : String
  sessionUuid : String
  url : String
  context : Option String
  extensionVersion : String
  tabActive : Option Bool
deriving DecidableEq, Repr

/-- Model of `StoredEvent` (api.ts lines 48-56): the durable envelope wrapping one
event for retry. -/
structure StoredEvent where
  apiUrl : String
  event : Event
  lastAttempt : Int
  persisted : Bool
  attempts : Nat
  participantCode : String
  tryImmediately : Bool
deriving DecidableEq, Repr

/-- Source: `const retryDelay = 60000` (api.ts line 58). -/
def retryDelay : Int := 60000

/-- Errors thrown by the session coordinator: `newSession` throws
`'Missing participant code!'` or `'Failed to create new session: ...'`
(api.ts lines 215, 226). -/
inductive ApiError where
  | missingIdentity
  | sessionCreationFailed (message : String)
deriving DecidableEq, Repr

/-- Environment values read by the pipeline: `document.referrer`,
`packageJson.version`, `window.location.href` and the current clock. -/
structure Env where
  referrer : String
  version : String
  locationHref : String
  now : Int
deriving DecidableEq, Repr

/-- The mutable closure state of one `createApi` instance (api.ts lines
138-143) together with the module-level queue storage it works on:
`participantCode`, `sessionUuid`, the single-flight `sessionPromise` handle
(promise id), a counter supplying fresh promise ids, the log of session
creation POSTs issued (their headers, in order), the decoded content of the
`events` storage slot, the module-level `tabIsActive`, and the `apiUrl`
argument. -/
structure ApiState where
  participantCode : String
  sessionUuid : String
  sessionPromise : Option Nat
  nextPromiseId : Nat
  sessionCalls : List (List (String × String))
  store : List StoredEvent
  tabIsActive : Option Bool
  apiUrl : String
deriving DecidableEq, Repr

/-- The `headers` closure (api.ts lines 163-166). -/
def headers (participantCode : String) : List (String × String) :=
  [("Content-Type", "application/json"), ("X-Participant-Code", participantCode)]

/-- Line 139: `getFromLocalStorage('participantCode') ?? overrideParticipantCode ?? ''` —
the persisted code takes precedence over the override argument. -/
def createApiParticipantCode (storageCode : Option String) (overrideCode : Option String) :
    String :=
  storageCode.getD (overrideCode.getD "")

/-- The `createApi` initial state (api.ts lines 138-143). `sessionUuid` is
`getFromSessionStorage('sessionUuid') ?? ''`, given here already defaulted to
a `String`. -/
def createApiState (apiUrl : String) (storageCode : Option String)
    (overrideCode : Option String) (sessionUuid : String)
    (store : List StoredEvent) (tab : Option Bool) : ApiState :=
  { participantCode := createApiParticipantCode storageCode overrideCode
    sessionUuid := sessionUuid
    sessionPromise := none
    nextPromiseId := 0
    sessionCalls := []
    store := store
    tabIsActive := tab
    apiUrl := apiUrl }

/-- Model of `saveStoredEvents` (api.ts lines 84-93) at the decoded level: on success
the slot holds the given list; if compression/serialization throws, the
`catch` writes the empty string, which decodes to the empty queue. `ok` says
whether the `try` block succeeded. -/
def saveStoredEvents (ok : Bool) (events : List StoredEvent) : List StoredEvent :=
  if ok then events else []

/-- Model of `createSession` (api.ts lines 176-192): if a promise is in flight, return
it without any network call; otherwise issue the POST (recording its headers),
install the new promise as the in-flight handle and return it. The
completion callbacks that clear the handle are modelled by
`resolveSessionPromise`. -/
def createSession (s : ApiState) : ApiState × Nat :=
  match s.sessionPromise with
  | some p => (s, p)
  | none =>
    let p := s.nextPromiseId
    ({ s with
        sessionPromise := some p
        nextPromiseId := p + 1
        sessionCalls := s.sessionCalls ++ [headers s.participantCode] }, p)

/-- The settlement of the in-flight session promise: both the `then` and the
`catch` callback attached in `createSession` (lines 184-189) clear
`sessionPromise`, whatever the outcome was. -/
def resolveSessionPromise (s : ApiState) (_outcome : Maybe Session) : ApiState :=
  { s with sessionPromise := none }

/-- Model of `newSession` (api.ts lines 213-227): throw `MissingIdentity` when the
participant code is falsy, before delegating to `createSession`; otherwise
await the (settled) creation promise — whose outcome is the oracle argument —
adopt and persist the uuid on success, and throw `SessionCreationFailed` with
the server message otherwise. -/
def newSession (s : ApiState) (outcome : Maybe Session) :
    ApiState × Except ApiError String :=
  if s.participantCode = "" then (s, .error .missingIdentity)
  else
    let s1 := (createSession s).1
    let s2 := resolveSessionPromise s1 outcome
    match outcome with
    | .success sess => ({ s2 with sessionUuid := sess.uuid }, .ok sess.uuid)
    | .failure _ message => (s2, .error (.sessionCreationFailed message))

/-- Model of `ensureSession` (api.ts lines 235-246): return at once when a session id
is cached; else when a creation promise is in flight, await its settlement
(which clears the handle) and return; else run `newSession`. -/
def ensureSession (s : ApiState) (outcome : Maybe Session) :
    ApiState × Except ApiError Unit :=
  if s.sessionUuid ≠ "" then (s, .ok ())
  else
    match s.sessionPromise with
    | some _ => (resolveSessionPromise s outcome, .ok ())
    | none =>
      let (s1, r) := newSession s outcome
      (s1, r.map fun _ => ())

/-- Model of `getSession` (api.ts lines 229-231). -/
def getSession (s : ApiState) : Option String :=
  if s.sessionUuid = "" then none else some s.sessionUuid

/-- Iterated `createSession` calls with no settlement in between, collecting
the promise returned to each caller. -/
def runCreates (s : ApiState) : Nat → ApiState × List Nat
  | 0 => (s, [])
  | n + 1 =>
    let (s1, p) := createSession s
    let (s2, ps) := runCreates s1 n
    (s2, p :: ps)

/-! ## Delivery pipeline (`postEvent`, api.ts lines 248-290) -/

/-- Lines 256-262: spread the input event, fill `context` from the referrer
when it is null/undefined (`??`), then set `extensionVersion` and `tabActive`
from process-wide state. -/
def enrichEvent (s : ApiState) (env : Env) (inputEvent : Event) : Event :=
  { inputEvent with
    context := some (inputEvent.context.getD env.referrer)
    extensionVersion := env.version
    tabActive := s.tabIsActive }

/-- Model of `storeEvent` (api.ts lines 145-161): load the queue, push an envelope with
`lastAttempt = new Date()`, `persisted = false`, `attempts = 1`,
`tryImmediately = true` and the closure's `participantCode`, and save.
`saveOk` is whether `saveStoredEvents`'s try block succeeds. -/
def storeEvent (s : ApiState) (env : Env) (event : Event) (saveOk : Bool) : ApiState :=
  let toStore : StoredEvent :=
    { event := event
      apiUrl := s.apiUrl
      lastAttempt := env.now
      persisted := false
      attempts := 1
      participantCode := s.participantCode
      tryImmediately := true }
  { s with store := saveStoredEvents saveOk (s.store ++ [toStore]) }

/-- Model of `clearStoredEvent` (api.ts lines 131-136): keep exactly the queue entries
whose wrapped event has a different `localUuid`. -/
def clearStoredEvent (s : ApiState) (event : Event) (saveOk : Bool) : ApiState :=
  { s with
    store := saveStoredEvents saveOk
      (s.store.filter fun e => e.event.localUuid ≠ event.localUuid) }

/-- How `postEvent` stands at its `await post(...)` suspension point. -/
inductive PrepareOutcome where
  | noCode
  | sessionError (e : ApiError)
  | ready (ev : Event)
deriving DecidableEq, Repr

/-- Lines 269-275 of `postEvent`: conditional `storeEvent`, then the
`window.location.href` fill of a falsy `url`, yielding the event that is about
to be POSTed. -/
def prepareTail (s : ApiState) (env : Env) (event : Event) (storeForRetry : Bool)
    (saveOk : Bool) : ApiState × PrepareOutcome :=
  let s1 := if storeForRetry then storeEvent s env event saveOk else s
  let ev2 := if event.url = "" then { event with url := env.locationHref } else event
  (s1, .ready ev2)

/-- Model of `postEvent` up to (exclusive) the `await post(postEvent, event, h)` call
(api.ts lines 248-277): reject the call when the header participant code is
falsy; enrich; when the event carries no session id, run `ensureSession`
(whose network outcome is the `sessionOutcome` oracle; an exception it throws
propagates out of `postEvent`) and copy the cached `sessionUuid` into the
event; conditionally store the envelope; fill the url. The returned state is
the state at the moment the POST is issued. -/
def postEventPrepare (s : ApiState) (env : Env) (inputEvent : Event)
    (storeForRetry : Bool) (sessionOutcome : Maybe Session) (saveOk : Bool) :
    ApiState × PrepareOutcome :=
  if s.participantCode = "" then (s, .noCode)
  else
    let event1 := enrichEvent s env inputEvent
    if event1.sessionUuid = "" then
      match ensureSession s sessionOutcome with
      | (s1, .error e) => (s1, .sessionError e)
      | (s1, .ok _) =>
        prepareTail s1 env { event1 with sessionUuid := s1.sessionUuid } storeForRetry saveOk
    else
      prepareTail s env event1 storeForRetry saveOk

/-- The observable outcome of one `postEvent` call: final state, the returned
boolean (or the exception the call rejects with), and the event actually
POSTed, if the POST was reached. -/
structure PostEventResult where
  state : ApiState
  result : Except ApiError Bool
  posted : Option Event
deriving Repr

/-- Model of `postEvent` (api.ts lines 248-290), given oracles for the session-creation
outcome and the collector's `response` to the event POST: interpret a
`Success`, or a `Failure` with code `EVENT_ALREADY_EXISTS_OK`, as delivered —
purge the queue of this `localUuid` and return `true`; anything else returns
`false` and leaves the queue untouched. `clearSaveOk` is whether the save
inside `clearStoredEvent` succeeds. -/
def postEvent (s : ApiState) (env : Env) (inputEvent : Event) (storeForRetry : Bool)
    (sessionOutcome : Maybe Session) (saveOk : Bool) (response : Maybe Bool)
    (clearSaveOk : Bool) : PostEventResult :=
  match postEventPrepare s env inputEvent storeForRetry sessionOutcome saveOk with
  | (s1, .noCode) => ⟨s1, .ok false, none⟩
  | (s1, .sessionError e) => ⟨s1, .error e, none⟩
  | (s1, .ready ev) =>
    match response with
    | .success _ => ⟨clearStoredEvent s1 ev clearSaveOk, .ok true, some ev⟩
    | .failure code _ =>
      if code = "EVENT_ALREADY_EXISTS_OK" then
        ⟨clearStoredEvent s1 ev clearSaveOk, .ok true, some ev⟩
      else ⟨s1, .ok false, some ev⟩

/-! ## Retry scheduler (`retryToPostStoredEvents`, api.ts lines 95-129) -/

/-- The shared storage the sweep reads and writes: the decoded `events` slot
and the session-scoped `sessionUuid` value
(`getFromSessionStorage('sessionUuid') ?? ''`, given here already defaulted
to a `String`). -/
structure SweepStorage where
  events : List StoredEvent
  sessionUuid : String
deriving DecidableEq, Repr

/-- What one loop iteration of the sweep did to one entry: the (possibly
mutated) entry, the `X-Participant-Code` header value the fresh
`createApi(storedEvent.apiUrl, storedEvent.participantCode)` instance
computed (`none` when the entry was skipped before an api was built), the
event POSTed by the inner `postEvent` (if it reached the POST), the boolean
the inner `postEvent` returned, and the session-creation calls the inner api
issued. -/
structure RetryStepResult where
  entry : StoredEvent
  headerCode : Option String
  posted : Option Event
  postResult : Option Bool
  sessionCalls : List (List (String × String))
deriving Repr

/-- Lines 118-123: interpret what the awaited inner `postEvent` call did. A
rejection aborts the sweep; a returned `true` marks the mutated entry `se1`
as `persisted`; a returned `false` stamps `lastAttempt = new Date()`. The
new shared storage is whatever the inner call left behind. -/
def retryFinish (now : Int) (code : String) (se1 : StoredEvent) (r : PostEventResult) :
    Except ApiError (RetryStepResult × SweepStorage) :=
  match r.result with
  | .error e => .error e
  | .ok b =>
    let se2 := if b then { se1 with persisted := true }
               else { se1 with lastAttempt := now }
    .ok (⟨se2, some code, r.posted, some b, r.state.sessionCalls⟩,
         ⟨r.state.store, r.state.sessionUuid⟩)

/-- The processed half of one loop iteration (api.ts lines 105-123), applied
to the already mutated entry `se1` (whose `attempts` was bumped and
`tryImmediately` cleared), the event to repost (`storedEvent.event`, which
the mutation did not touch) and the fresh api instance built for the entry.
If the api's header participant code is falsy, mark the entry `persisted`
with no network call; otherwise run the inner
`api.postEvent(storedEvent.event, false)` and interpret it. -/
def retryProcess (now : Int) (env : Env) (sessionOutcome : Maybe Session)
    (response : Maybe Bool) (clearSaveOk : Bool) (api : ApiState) (st : SweepStorage)
    (ev : Event) (se1 : StoredEvent) : Except ApiError (RetryStepResult × SweepStorage) :=
  if api.participantCode = "" then
    .ok (⟨{ se1 with persisted := true }, some api.participantCode, none, none, []⟩, st)
  else
    retryFinish now api.participantCode se1
      (postEvent api env ev false sessionOutcome true response clearSaveOk)

/-- The fresh api instance one sweep iteration builds for an entry:
`createApi(storedEvent.apiUrl, storedEvent.participantCode)` (api.ts line
108) read against the current storage. -/
def retryApi (storageCode : Option String) (tab : Option Bool) (st : SweepStorage)
    (se : StoredEvent) : ApiState :=
  createApiState se.apiUrl storageCode (some se.participantCode) st.sessionUuid st.events tab

/-- One iteration of the `for` loop of `retryToPostStoredEvents` (api.ts
lines 98-124). Skip the entry untouched when the backoff window is still open
and `tryImmediately` is false; otherwise bump `attempts`, clear
`tryImmediately`, build a fresh api for the entry
(`retryApi`, whose code is
`getFromLocalStorage('participantCode') ?? storedEvent.participantCode ?? ''`)
and hand over to `retryProcess`. -/
def retryStep (now : Int) (storageCode : Option String) (env : Env) (tab : Option Bool)
    (sessionOutcome : Maybe Session) (response : Maybe Bool) (clearSaveOk : Bool)
    (st : SweepStorage) (storedEvent : StoredEvent) :
    Except ApiError (RetryStepResult × SweepStorage) :=
  if storedEvent.lastAttempt + retryDelay - now > 0 ∧ storedEvent.tryImmediately = false then
    .ok (⟨storedEvent, none, none, none, []⟩, st)
  else
    retryProcess now env sessionOutcome response clearSaveOk
      (retryApi storageCode tab st storedEvent)
      st
      storedEvent.event
      { storedEvent with attempts := storedEvent.attempts + 1, tryImmediately := false }

/-- The whole `for` loop, threading the shared storage and collecting the
per-entry results in order; the first rejected inner `postEvent` aborts the
loop (the source has no `try` around the `await`). -/
def retryLoop (now : Int) (storageCode : Option String) (env : Env) (tab : Option Bool)
    (sessionOutcome : StoredEvent → Maybe Session) (response : StoredEvent → Maybe Bool)
    (clearSaveOk : Bool) :
    List StoredEvent → SweepStorage → Except ApiError (List RetryStepResult × SweepStorage)
  | [], st => .ok ([], st)
  | se :: rest, st =>
    match retryStep now storageCode env tab (sessionOutcome se) (response se) clearSaveOk st se with
    | .error e => .error e
    | .ok (r, st1) =>
      match retryLoop now storageCode env tab sessionOutcome response clearSaveOk rest st1 with
      | .error e => .error e
      | .ok (rs, st2) => .ok (r :: rs, st2)

/-- Model of `retryToPostStoredEvents` (api.ts lines 95-129): load the queue, process
every entry, then filter out the entries marked `persisted` and rewrite the
store with the remainder (`finalSaveOk` is whether that last
`saveStoredEvents` succeeds internally). -/
def retryToPostStoredEvents (now : Int) (storageCode : Option String) (env : Env)
    (tab : Option Bool) (sessionOutcome : StoredEvent → Maybe Session)
    (response : StoredEvent → Maybe Bool) (clearSaveOk : Bool) (finalSaveOk : Bool)
    (st : SweepStorage) : Except ApiError SweepStorage :=
  match retryLoop now storageCode env tab sessionOutcome response clearSaveOk st.events st with
  | .error e => .error e
  | .ok (rs, stEnd) =>
    let remainingEvents := (rs.map RetryStepResult.entry).filter fun e => !e.persisted
    .ok { stEnd with events := saveStoredEvents finalSaveOk remainingEvents }

/-! ## Durable queue store at the raw level (`loadStoredEvents`, api.ts 62-82) -/

/-- A JS string held in the `events` storage slot, abstracted by the two
observations `loadStoredEvents` makes of it: its truthiness, and what
`JSON.parse(...).map(restore)` does on it — either the decoded `StoredEvent`
array, or the exception thrown (`JSON.parse` throws `SyntaxError` on
malformed text; a parse result that is not an array makes the subsequent
`.map` throw). -/
structure JsString where
  isEmpty : Bool
  parse : Except String (List StoredEvent)

/-- Line 80: `lastAttempt: new Date(e.lastAttempt)`; with dates modelled as
epoch milliseconds the reconstruction is the identity on the field. -/
def restoreDate (e : StoredEvent) : StoredEvent :=
  { e with lastAttempt := e.lastAttempt }

/-- Model of `loadStoredEvents` (api.ts lines 62-82). `dataStr` is
`getFromLocalStorage('events')` (`none` when absent), `lzFlag` is
`getFromLocalStorage('lz-string')`, and `decompressFromUTF16` is the
behaviour of the lz-string decompressor (`none` models the `null` it returns
on garbage). An `.error` value means the exception propagates to the caller
of `loadStoredEvents` — there is no `try`/`catch` in the function. -/
def loadStoredEvents (dataStr : Option JsString) (lzFlag : Option String)
    (decompressFromUTF16 : JsString → Option JsString) :
    Except String (List StoredEvent) :=
  match dataStr with
  | none => .ok []
  | some s =>
    if s.isEmpty then .ok []
    else
      let json := if lzFlag = some "true" then decompressFromUTF16 s else some s
      match json with
      | none => .ok []
      | some j =>
        if j.isEmpty then .ok []
        else j.parse.map (List.map restoreDate)

/-- The `events` text that actually reaches `JSON.parse` in
`loadStoredEvents`, if any: `none` in all the contained cases (absent slot,
empty string, decompression yielding null or the empty string). -/
def effectiveJson (dataStr : Option JsString) (lzFlag : Option String)
    (decompressFromUTF16 : JsString → Option JsString) : Option JsString :=
  match dataStr with
  | none => none
  | some s =>
    if s.isEmpty then none
    else
      match (if lzFlag = some "true" then decompressFromUTF16 s else some s) with
      | none => none
      | some j => if j.isEmpty then none else some j

/-- Projection: the `headerCode` observed for an entry when the sweep step
succeeded. -/
def stepHeaderCode (x : Except ApiError (RetryStepResult × SweepStorage)) : Option String :=
  match x with
  | .ok (r, _) => r.headerCode
  | .error _ => none

/-- Projection: the event the sweep step POSTed, when the step succeeded and
a POST was reached. -/
def stepPosted (x : Except ApiError (RetryStepResult × SweepStorage)) : Option Event :=
  match x with
  | .ok (r, _) => r.posted
  | .error _ => none

/-! ## Sample fixtures used by the witnesses -/

/-- A coordinator state with an authenticated participant and a cached
session. -/
def sampleState : ApiState :=
  { participantCode := "P1"
    sessionUuid := "sess-1"
    sessionPromise := none
    nextPromiseId := 0
    sessionCalls := []
    store := []
    tabIsActive := some true
    apiUrl := "https://api" }

/-- A coordinator state with no participant code and no cached session. -/
def anonState : ApiState :=
  { participantCode := ""
    sessionUuid := ""
    sessionPromise := none
    nextPromiseId := 0
    sessionCalls := []
    store := []
    tabIsActive := none
    apiUrl := "https://api" }

def sampleEnv : Env :=
  { referrer := "ref", version := "1.2.3", locationHref := "https://yt/home", now := 1000 }

/-- An event that already carries a session identifier. -/
def sampleEvent : Event :=
  { type := "PAGE_VIEW", localUuid := "uuid-1", sessionUuid := "sess-1", url := ""
    context := none, extensionVersion := "", tabActive := none }

/-- An event with no session identifier yet. -/
def freshEvent : Event :=
  { type := "PAGE_VIEW", localUuid := "uuid-2", sessionUuid := "", url := ""
    context := none, extensionVersion := "", tabActive := none }

def sampleSession : Session := ⟨"srv-uuid"⟩

/-- A queued envelope recorded under participant `"P1"`, due immediately. -/
def sampleStored : StoredEvent :=
  { apiUrl := "https://api", event := sampleEvent, lastAttempt := 0
    persisted := false, attempts := 1, participantCode := "P1", tryImmediately := true }

/-- A sample state whose queue already holds one envelope for
`sampleEvent`. -/
def queuedState : ApiState := { sampleState with store := [sampleStored] }

/-- A nonempty `events` blob on which `JSON.parse` throws. -/
def malformedBlob : JsString :=
  ⟨false, .error "SyntaxError: Unexpected token"⟩

/-- A queued envelope whose recorded participant code is empty. -/
def orphanStored : StoredEvent :=
  { apiUrl := "https://api", event := sampleEvent, lastAttempt := 0
    persisted := false, attempts := 1, participantCode := "", tryImmediately := true }

/-! ## Helper lemmas -/

theorem saveStoredEvents_ok (l : List StoredEvent) : saveStoredEvents true l = l := rfl

theorem enrichEvent_localUuid (s : ApiState) (env : Env) (e : Event) :
    (enrichEvent s env e).localUuid = e.localUuid := rfl

theorem enrichEvent_sessionUuid (s : ApiState) (env : Env) (e : Event) :
    (enrichEvent s env e).sessionUuid = e.sessionUuid := rfl

/-- The `ensureSession` step only touches the session bookkeeping fields: the
participant code, the queue store, the api url and the tab flag are
untouched on every path. -/
theorem ensureSession_preserves (s : ApiState) (o : Maybe Session) :
    (ensureSession s o).1.participantCode = s.participantCode ∧
    (ensureSession s o).1.store = s.store ∧
    (ensureSession s o).1.apiUrl = s.apiUrl ∧
    (ensureSession s o).1.tabIsActive = s.tabIsActive := by
  by_cases h1 : s.sessionUuid = ""
  · cases hp : s.sessionPromise with
    | some p => simp [ensureSession, h1, hp, resolveSessionPromise]
    | none =>
      by_cases h2 : s.participantCode = ""
      · simp [ensureSession, h1, hp, newSession, h2]
      · cases o with
        | success sess =>
          simp [ensureSession, h1, hp, newSession, h2, createSession,
            resolveSessionPromise]
        | failure c m =>
          simp [ensureSession, h1, hp, newSession, h2, createSession,
            resolveSessionPromise]
  · simp [ensureSession, h1]

/-- When a creation promise is in flight, every further `createSession` call
joins it: the state is unchanged and every caller gets the same promise. -/
theorem runCreates_inflight (s : ApiState) (q : Nat) (h : s.sessionPromise = some q) :
    ∀ n, runCreates s n = (s, List.replicate n q) := by
  intro n
  induction n with
  | zero => rfl
  | succ m ih => simp [runCreates, createSession, h, ih, List.replicate_succ]

theorem prepareTail_eq (s : ApiState) (env : Env) (event : Event) (storeForRetry : Bool)
    (saveOk : Bool) :
    prepareTail s env event storeForRetry saveOk =
      ((if storeForRetry then storeEvent s env event saveOk else s),
        .ready (if event.url = "" then { event with url := env.locationHref } else event)) :=
  rfl

/-- A `postEvent` call with an event already carrying a session id never consults the
session coordinator: the preparation reduces to the enrichment tail. -/
theorem postEventPrepare_of_sessionUuid_ne (s : ApiState) (env : Env) (e : Event)
    (storeForRetry : Bool) (so : Maybe Session) (saveOk : Bool)
    (hcode : s.participantCode ≠ "") (hse : e.sessionUuid ≠ "") :
    postEventPrepare s env e storeForRetry so saveOk =
      prepareTail s env (enrichEvent s env e) storeForRetry saveOk := by
  have h1 : (enrichEvent s env e).sessionUuid = e.sessionUuid := rfl
  simp only [postEventPrepare, if_neg hcode, h1, if_neg hse]

/-- When the event carries no session id and `ensureSession` returns
normally, `postEvent` fills the event's session id from the now-cached value
before the tail. -/
theorem postEventPrepare_of_sessionUuid_eq (s : ApiState) (env : Env) (e : Event)
    (storeForRetry : Bool) (so : Maybe Session) (saveOk : Bool) (sE : ApiState) (u : Unit)
    (hcode : s.participantCode ≠ "") (hse : e.sessionUuid = "")
    (hens : ensureSession s so = (sE, .ok u)) :
    postEventPrepare s env e storeForRetry so saveOk =
      prepareTail sE env { enrichEvent s env e with sessionUuid := sE.sessionUuid }
        storeForRetry saveOk := by
  have h1 : (enrichEvent s env e).sessionUuid = e.sessionUuid := rfl
  simp only [postEventPrepare, if_neg hcode, h1, if_pos hse, hens]

/-- When the event carries no session id and `ensureSession` throws, the
whole `postEvent` call rejects before any store write or POST. -/
theorem postEventPrepare_of_session_error (s : ApiState) (env : Env) (e : Event)
    (storeForRetry : Bool) (so : Maybe Session) (saveOk : Bool) (sE : ApiState)
    (er : ApiError)
    (hcode : s.participantCode ≠ "") (hse : e.sessionUuid = "")
    (hens : ensureSession s so = (sE, .error er)) :
    postEventPrepare s env e storeForRetry so saveOk = (sE, .sessionError er) := by
  have h1 : (enrichEvent s env e).sessionUuid = e.sessionUuid := rfl
  simp only [postEventPrepare, if_neg hcode, h1, if_pos hse, hens]

/-- The url fill of `prepareTail` changes neither the deduplication id nor
the session id of the event that gets POSTed. -/
theorem prepareTail_ready_ids (s : ApiState) (env : Env) (event : Event)
    (storeForRetry : Bool) (saveOk : Bool) (s1 : ApiState) (ev : Event)
    (hp : prepareTail s env event storeForRetry saveOk = (s1, .ready ev)) :
    ev.localUuid = event.localUuid ∧ ev.sessionUuid = event.sessionUuid := by
  rw [prepareTail_eq] at hp
  injection hp with h1 h2
  injection h2 with h3
  subst h3
  by_cases hurl : event.url = "" <;> simp [hurl]

/-- The event POSTed by `postEvent` keeps the input event's `localUuid`. -/
theorem postEventPrepare_ready_localUuid (s : ApiState) (env : Env) (e : Event)
    (storeForRetry : Bool) (so : Maybe Session) (saveOk : Bool) (s1 : ApiState) (ev : Event)
    (hp : postEventPrepare s env e storeForRetry so saveOk = (s1, .ready ev)) :
    ev.localUuid = e.localUuid := by
  by_cases hcode : s.participantCode = ""
  · simp [postEventPrepare, hcode] at hp
  · by_cases hse : e.sessionUuid = ""
    · rcases hens : ensureSession s so with ⟨sE, rE⟩
      cases rE with
      | error er =>
        rw [postEventPrepare_of_session_error s env e storeForRetry so saveOk sE er
          hcode hse hens] at hp
        simp at hp
      | ok u =>
        rw [postEventPrepare_of_sessionUuid_eq s env e storeForRetry so saveOk sE u
          hcode hse hens] at hp
        exact (prepareTail_ready_ids _ _ _ _ _ _ _ hp).1
    · rw [postEventPrepare_of_sessionUuid_ne s env e storeForRetry so saveOk hcode hse]
        at hp
      exact (prepareTail_ready_ids _ _ _ _ _ _ _ hp).1

/-- Filtering out one `localUuid` leaves a list in which every entry has a
different `localUuid`. -/
theorem all_ne_filter (l : List StoredEvent) (u : String) :
    ((l.filter fun q => q.event.localUuid ≠ u).all
      fun q => q.event.localUuid != u) = true := by
  induction l with
  | nil => rfl
  | cons a t ih =>
    by_cases h : a.event.localUuid = u <;> simp [List.filter_cons, h, ih]

/-- A sweep iteration whose backoff guard holds leaves the entry and the
storage completely untouched and performs nothing. -/
theorem retryStep_skip (now : Int) (storageCode : Option String) (env : Env)
    (tab : Option Bool) (so : Maybe Session) (resp : Maybe Bool) (clearOk : Bool)
    (st : SweepStorage) (se : StoredEvent)
    (hg : se.lastAttempt + retryDelay - now > 0 ∧ se.tryImmediately = false) :
    retryStep now storageCode env tab so resp clearOk st se =
      .ok (⟨se, none, none, none, []⟩, st) := by
  unfold retryStep
  rw [if_pos hg]

/-- A processed sweep iteration that produced a result reports as its
`headerCode` the participant code of the fresh api instance, and never
mutates the wrapped event of the entry. -/
theorem retryStep_processed (now : Int) (storageCode : Option String) (env : Env)
    (tab : Option Bool) (so : Maybe Session) (resp : Maybe Bool) (clearOk : Bool)
    (st : SweepStorage) (se : StoredEvent) (r : RetryStepResult) (st2 : SweepStorage)
    (hg : ¬(se.lastAttempt + retryDelay - now > 0 ∧ se.tryImmediately = false))
    (hr : retryStep now storageCode env tab so resp clearOk st se = .ok (r, st2)) :
    r.headerCode = some (retryApi storageCode tab st se).participantCode ∧
    r.entry.event = se.event := by
  unfold retryStep at hr
  rw [if_neg hg] at hr
  unfold retryProcess at hr
  by_cases hpc : (retryApi storageCode tab st se).participantCode = ""
  · rw [if_pos hpc] at hr
    injection hr with h
    injection h with h1 h2
    subst h1
    exact ⟨rfl, rfl⟩
  · rw [if_neg hpc] at hr
    unfold retryFinish at hr
    rcases hres : (postEvent (retryApi storageCode tab st se) env se.event
        false so true resp clearOk).result with e | b
    · rw [hres] at hr
      exact (Except.noConfusion hr)
    · rw [hres] at hr
      injection hr with h
      injection h with h1 h2
      subst h1
      refine ⟨rfl, ?_⟩
      cases b <;> rfl

/-- A processed sweep iteration whose fresh api has an empty participant code
drops the entry (`persisted = true`) without any network activity and leaves
the storage unchanged. -/
theorem retryStep_dropped (now : Int) (storageCode : Option String) (env : Env)
    (tab : Option Bool) (so : Maybe Session) (resp : Maybe Bool) (clearOk : Bool)
    (st : SweepStorage) (se : StoredEvent)
    (hg : ¬(se.lastAttempt + retryDelay - now > 0 ∧ se.tryImmediately = false))
    (hpc : (retryApi storageCode tab st se).participantCode = "") :
    retryStep now storageCode env tab so resp clearOk st se =
      .ok (⟨{ se with
                attempts := se.attempts + 1
                tryImmediately := false
                persisted := true },
            some (retryApi storageCode tab st se).participantCode, none, none, []⟩, st) := by
  unfold retryStep
  rw [if_neg hg]
  unfold retryProcess
  rw [if_pos hpc]

/-- A processed sweep iteration with a non-empty participant code that
produced a result ran the inner `postEvent` on the entry's own wrapped event,
and reports that call's POSTed event and session activity unchanged. -/
theorem retryStep_posted (now : Int) (storageCode : Option String) (env : Env)
    (tab : Option Bool) (so : Maybe Session) (resp : Maybe Bool) (clearOk : Bool)
    (st : SweepStorage) (se : StoredEvent) (r : RetryStepResult) (st2 : SweepStorage)
    (hg : ¬(se.lastAttempt + retryDelay - now > 0 ∧ se.tryImmediately = false))
    (hpc : (retryApi storageCode tab st se).participantCode ≠ "")
    (hr : retryStep now storageCode env tab so resp clearOk st se = .ok (r, st2)) :
    ∃ b, (postEvent (retryApi storageCode tab st se) env se.event false so true resp
            clearOk).result = .ok b ∧
      r.posted = (postEvent (retryApi storageCode tab st se) env se.event false so true
        resp clearOk).posted ∧
      r.sessionCalls = (postEvent (retryApi storageCode tab st se) env se.event false so
        true resp clearOk).state.sessionCalls ∧
      r.postResult = some b := by
  unfold retryStep at hr
  rw [if_neg hg] at hr
  unfold retryProcess at hr
  rw [if_neg hpc] at hr
  unfold retryFinish at hr
  rcases hres : (postEvent (retryApi storageCode tab st se) env se.event false so true
      resp clearOk).result with e | b
  · rw [hres] at hr
    exact (Except.noConfusion hr)
  · rw [hres] at hr
    injection hr with h
    injection h with h1 h2
    subst h1
    exact ⟨b, rfl, rfl, rfl, rfl⟩

theorem retryApi_participantCode (storageCode : Option String) (tab : Option Bool)
    (st : SweepStorage) (se : StoredEvent) :
    (retryApi storageCode tab st se).participantCode =
      createApiParticipantCode storageCode (some se.participantCode) := rfl

theorem storeEvent_sessionUuid (s : ApiState) (env : Env) (ev : Event) (ok : Bool) :
    (storeEvent s env ev ok).sessionUuid = s.sessionUuid := rfl

theorem storeEvent_sessionCalls (s : ApiState) (env : Env) (ev : Event) (ok : Bool) :
    (storeEvent s env ev ok).sessionCalls = s.sessionCalls := rfl

theorem clearStoredEvent_sessionCalls (s : ApiState) (ev : Event) (ok : Bool) :
    (clearStoredEvent s ev ok).sessionCalls = s.sessionCalls := rfl

/-- An event that already carries a session id goes through `postEventPrepare`
without any session activity: no session-creation call is recorded, and the
event that reaches the POST keeps its session id. -/
theorem postEventPrepare_no_session_creation (s : ApiState) (env : Env) (e : Event)
    (retain : Bool) (so : Maybe Session) (saveOk : Bool) (hse : e.sessionUuid ≠ "") :
    (postEventPrepare s env e retain so saveOk).1.sessionCalls = s.sessionCalls ∧
    ∀ s1 ev, postEventPrepare s env e retain so saveOk = (s1, .ready ev) →
      ev.sessionUuid = e.sessionUuid := by
  by_cases hcode : s.participantCode = ""
  · constructor
    · simp [postEventPrepare, hcode]
    · intro s1 ev hp
      simp [postEventPrepare, hcode] at hp
  · rw [postEventPrepare_of_sessionUuid_ne s env e retain so saveOk hcode hse]
    constructor
    · rw [prepareTail_eq]
      cases retain with
      | false => rfl
      | true => rfl
    · intro s1 ev hp
      rw [(prepareTail_ready_ids _ _ _ _ _ _ _ hp).2]
      rfl

/-- An event that already carries a session id goes through the whole
`postEvent` without any session activity. -/
theorem postEvent_no_session_creation (s : ApiState) (env : Env) (e : Event)
    (retain : Bool) (so : Maybe Session) (saveOk : Bool) (resp : Maybe Bool)
    (clearOk : Bool) (hse : e.sessionUuid ≠ "") :
    (postEvent s env e retain so saveOk resp clearOk).state.sessionCalls = s.sessionCalls ∧
    ((postEvent s env e retain so saveOk resp clearOk).posted.elim True
      fun pev => pev.sessionUuid = e.sessionUuid) := by
  have h := postEventPrepare_no_session_creation s env e retain so saveOk hse
  rcases hp : postEventPrepare s env e retain so saveOk with ⟨s1, out⟩
  rw [hp] at h
  simp only at h
  cases out with
  | noCode =>
    constructor
    · simp only [postEvent, hp]
      exact h.1
    · simp [postEvent, hp]
  | sessionError er =>
    constructor
    · simp only [postEvent, hp]
      exact h.1
    · simp [postEvent, hp]
  | ready ev =>
    have hev : ev.sessionUuid = e.sessionUuid := h.2 s1 ev rfl
    constructor
    · cases resp with
      | success v => simpa [postEvent, hp, clearStoredEvent] using h.1
      | failure code m =>
        by_cases hc : code = "EVENT_ALREADY_EXISTS_OK"
        · simpa [postEvent, hp, hc, clearStoredEvent] using h.1
        · simpa [postEvent, hp, hc] using h.1
    · cases resp with
      | success v => simpa [postEvent, hp] using hev
      | failure code m =>
        by_cases hc : code = "EVENT_ALREADY_EXISTS_OK"
        · simpa [postEvent, hp, hc] using hev
        · simpa [postEvent, hp, hc] using hev

/-- Filtering by the negated `persisted` flag yields a list on which the
same test holds everywhere. -/
theorem all_filter_not_persisted (l : List StoredEvent) :
    ((l.filter fun e => !e.persisted).all fun e => !e.persisted) = true := by
  induction l with
  | nil => rfl
  | cons a t ih =>
    cases ha : a.persisted <;> simp [List.filter_cons, ha, ih]

/-! ## Claim theorems -/

/-- C9: for every coordinator state, `getSession` returns `undefined`
(modelled `none`) exactly when the cached session identifier is the empty
string, returns the cached identifier exactly otherwise, and never returns
the empty string itself. -/
theorem getSession_spec (s : ApiState) :
    (getSession s = none ↔ s.sessionUuid = "") ∧
    (getSession s = some s.sessionUuid ↔ s.sessionUuid ≠ "") ∧
    getSession s ≠ some "" := by
  by_cases h : s.sessionUuid = "" <;> simp [getSession, h]

/-- Witness for C9 at a concrete coordinator state. -/
theorem getSession_spec_witness :
    (getSession sampleState = none ↔ sampleState.sessionUuid = "") ∧
    (getSession sampleState = some sampleState.sessionUuid ↔
      sampleState.sessionUuid ≠ "") ∧
    getSession sampleState ≠ some "" :=
  getSession_spec sampleState

/-- C5: `createSession` is single-flight. From a state with no in-flight
request, `n + 1` calls made while the creation request is in flight issue
exactly one network call and hand every caller the same promise
(`List.replicate`, hence the same outcome); the settlement callbacks clear
the in-flight handle whatever the outcome `o` was; and a call made after that
completion issues a fresh network request (a second recorded call). -/
theorem createSession_single_flight (s : ApiState) (n : Nat) (o : Maybe Session)
    (h : s.sessionPromise = none) :
    (runCreates s (n + 1)).1.sessionCalls.length = s.sessionCalls.length + 1 ∧
    (runCreates s (n + 1)).2 = List.replicate (n + 1) s.nextPromiseId ∧
    (resolveSessionPromise (runCreates s (n + 1)).1 o).sessionPromise = none ∧
    (createSession (resolveSessionPromise (runCreates s (n + 1)).1 o)).1.sessionCalls.length
      = s.sessionCalls.length + 2 := by
  have hrun : runCreates s (n + 1) =
      ({ s with
          sessionPromise := some s.nextPromiseId
          nextPromiseId := s.nextPromiseId + 1
          sessionCalls := s.sessionCalls ++ [headers s.participantCode] },
        List.replicate (n + 1) s.nextPromiseId) := by
    have step : createSession s =
        ({ s with
            sessionPromise := some s.nextPromiseId
            nextPromiseId := s.nextPromiseId + 1
            sessionCalls := s.sessionCalls ++ [headers s.participantCode] },
          s.nextPromiseId) := by
      simp [createSession, h]
    have tail := runCreates_inflight
      { s with
          sessionPromise := some s.nextPromiseId
          nextPromiseId := s.nextPromiseId + 1
          sessionCalls := s.sessionCalls ++ [headers s.participantCode] }
      s.nextPromiseId rfl n
    simp [runCreates, step, tail, List.replicate_succ]
  rw [hrun]
  refine ⟨by simp, rfl, rfl, ?_⟩
  simp [resolveSessionPromise, createSession]

/-- Witness for C5: three concurrent calls from the sample state, then a
failed settlement, then a fresh call. -/
theorem createSession_single_flight_witness :
    (runCreates sampleState 3).1.sessionCalls.length =
      sampleState.sessionCalls.length + 1 ∧
    (runCreates sampleState 3).2 = List.replicate 3 sampleState.nextPromiseId ∧
    (resolveSessionPromise (runCreates sampleState 3).1
      (.failure "INTERNAL" "boom")).sessionPromise = none ∧
    (createSession (resolveSessionPromise (runCreates sampleState 3).1
      (.failure "INTERNAL" "boom"))).1.sessionCalls.length =
      sampleState.sessionCalls.length + 2 :=
  createSession_single_flight sampleState 2 (.failure "INTERNAL" "boom") rfl

/-- C10: `createSession` performs no participant-identity check — from a
state with an empty participant code (and no request in flight) it still
issues a network request whose `X-Participant-Code` header is the empty
string — while `newSession` raises `MissingIdentity` first, before
delegating to `createSession`, leaving the state untouched (in particular no
network call is recorded and no promise is installed). -/
theorem createSession_no_identity_check (s : ApiState) (o : Maybe Session)
    (hcode : s.participantCode = "") (hp : s.sessionPromise = none) :
    (createSession s).1.sessionCalls = s.sessionCalls ++
      [[("Content-Type", "application/json"), ("X-Participant-Code", "")]] ∧
    newSession s o = (s, .error .missingIdentity) := by
  constructor
  · simp [createSession, hp, headers, hcode]
  · simp [newSession, hcode]

/-- Witness for C10 at the anonymous sample state. -/
theorem createSession_no_identity_check_witness :
    (createSession anonState).1.sessionCalls = anonState.sessionCalls ++
      [[("Content-Type", "application/json"), ("X-Participant-Code", "")]] ∧
    newSession anonState (.success sampleSession) =
      (anonState, .error .missingIdentity) :=
  createSession_no_identity_check anonState (.success sampleSession) rfl rfl

/-- C1: for every `postEvent(e, true)` call in which the participant identity
is present and which reaches its POST (`postEventPrepare` is by construction
`postEvent` at the instant the network submission is issued, and the full
`postEvent` factors through it), the state at that instant carries the queue
extended by exactly one envelope wrapping `e` with `attempts = 1`,
`tryImmediately = true` and `persisted = false` — the store already contains
the envelope when the POST starts. -/
theorem postEvent_stores_before_post (s : ApiState) (env : Env) (e : Event)
    (so : Maybe Session) (s1 : ApiState) (ev : Event)
    (hcode : s.participantCode ≠ "")
    (hp : postEventPrepare s env e true so true = (s1, .ready ev)) :
    ∃ box : StoredEvent,
      s1.store = s.store ++ [box] ∧ box.attempts = 1 ∧ box.tryImmediately = true ∧
      box.persisted = false ∧ box.event.localUuid = e.localUuid ∧
      box.lastAttempt = env.now ∧ box.participantCode = s.participantCode := by
  by_cases hse : e.sessionUuid = ""
  · rcases hens : ensureSession s so with ⟨sE, rE⟩
    cases rE with
    | error er =>
      rw [postEventPrepare_of_session_error s env e true so true sE er hcode hse hens]
        at hp
      simp at hp
    | ok u =>
      rw [postEventPrepare_of_sessionUuid_eq s env e true so true sE u hcode hse hens,
        prepareTail_eq] at hp
      have hpres := ensureSession_preserves s so
      rw [hens] at hpres
      simp only at hpres
      injection hp with h1 h2
      refine ⟨{ event := { enrichEvent s env e with sessionUuid := sE.sessionUuid }
                apiUrl := sE.apiUrl
                lastAttempt := env.now
                persisted := false
                attempts := 1
                participantCode := sE.participantCode
                tryImmediately := true }, ?_, rfl, rfl, rfl, rfl, rfl, ?_⟩
      · rw [← h1]
        simp [storeEvent, saveStoredEvents, hpres.2.1]
      · exact hpres.1
  · rw [postEventPrepare_of_sessionUuid_ne s env e true so true hcode hse,
      prepareTail_eq] at hp
    injection hp with h1 h2
    refine ⟨{ event := enrichEvent s env e
              apiUrl := s.apiUrl
              lastAttempt := env.now
              persisted := false
              attempts := 1
              participantCode := s.participantCode
              tryImmediately := true }, ?_, rfl, rfl, rfl, rfl, rfl, rfl⟩
    rw [← h1]
    simp [storeEvent, saveStoredEvents]

/-- Witness for C1: the sample authenticated state and sample event. -/
theorem postEvent_stores_before_post_witness :
    ∃ box : StoredEvent,
      (postEventPrepare sampleState sampleEnv sampleEvent true
          (.success sampleSession) true).1.store = sampleState.store ++ [box] ∧
      box.attempts = 1 ∧ box.tryImmediately = true ∧ box.persisted = false ∧
      box.event.localUuid = sampleEvent.localUuid ∧
      box.lastAttempt = sampleEnv.now ∧
      box.participantCode = sampleState.participantCode :=
  postEvent_stores_before_post sampleState sampleEnv sampleEvent
    (.success sampleSession) _ _ (by decide) rfl

/-- C2: for every `postEvent` call that reaches its POST, a `Success`
response — or a `Failure` whose code is `EVENT_ALREADY_EXISTS_OK` — makes the
call return `true` and purges from the queue every `StoredEvent` whose
wrapped event has the input event's `localUuid` (the final store contains no
entry with that id); any other response makes the call return `false` and
leaves the queue exactly as it stood at the moment of the POST. -/
theorem postEvent_response_interpretation (s : ApiState) (env : Env) (e : Event)
    (retain : Bool) (so : Maybe Session) (saveOk : Bool) (resp : Maybe Bool)
    (clearOk : Bool) (s1 : ApiState) (ev : Event)
    (hp : postEventPrepare s env e retain so saveOk = (s1, .ready ev)) :
    match resp with
    | .success _ =>
        (postEvent s env e retain so saveOk resp clearOk).result = .ok true ∧
        ((postEvent s env e retain so saveOk resp clearOk).state.store.all
          fun q => q.event.localUuid != e.localUuid) = true
    | .failure code _ =>
        if code = "EVENT_ALREADY_EXISTS_OK" then
          (postEvent s env e retain so saveOk resp clearOk).result = .ok true ∧
          ((postEvent s env e retain so saveOk resp clearOk).state.store.all
            fun q => q.event.localUuid != e.localUuid) = true
        else
          (postEvent s env e retain so saveOk resp clearOk).result = .ok false ∧
          (postEvent s env e retain so saveOk resp clearOk).state.store = s1.store := by
  have huuid : ev.localUuid = e.localUuid :=
    postEventPrepare_ready_localUuid s env e retain so saveOk s1 ev hp
  cases resp with
  | success v =>
    refine ⟨by simp [postEvent, hp], ?_⟩
    cases clearOk with
    | false => simp [postEvent, hp, clearStoredEvent, saveStoredEvents]
    | true =>
      simp only [postEvent, hp, clearStoredEvent, saveStoredEvents, if_pos rfl]
      rw [← huuid]
      exact all_ne_filter s1.store ev.localUuid
  | failure code m =>
    by_cases hc : code = "EVENT_ALREADY_EXISTS_OK"
    · simp only [hc, if_pos rfl]
      refine ⟨by simp [postEvent, hp], ?_⟩
      cases clearOk with
      | false => simp [postEvent, hp, clearStoredEvent, saveStoredEvents]
      | true =>
        simp only [postEvent, hp, clearStoredEvent, saveStoredEvents, if_pos rfl]
        rw [← huuid]
        exact all_ne_filter s1.store ev.localUuid
    · simp only [if_neg hc]
      constructor <;> simp [postEvent, hp, hc]

/-- Witness for C2: a success response purges the queued copy of the sample
event and reports `true`. -/
theorem postEvent_response_interpretation_witness :
    (postEvent queuedState sampleEnv sampleEvent false (.success sampleSession) true
      (.success true) true).result = .ok true ∧
    ((postEvent queuedState sampleEnv sampleEvent false (.success sampleSession) true
      (.success true) true).state.store.all
      fun q => q.event.localUuid != sampleEvent.localUuid) = true :=
  postEvent_response_interpretation queuedState sampleEnv sampleEvent false
    (.success sampleSession) true (.success true) true _ _ rfl

/-- C8: a sweep iteration leaves an entry completely untouched (and performs
nothing for it) exactly when the current time is earlier than its
`lastAttempt` plus the fixed 60-second delay and its `tryImmediately` flag is
false; in particular an entry with `tryImmediately = true` is never skipped,
regardless of elapsed time. -/
theorem retryStep_skip_iff (now : Int) (storageCode : Option String) (env : Env)
    (tab : Option Bool) (so : Maybe Session) (resp : Maybe Bool) (clearOk : Bool)
    (st : SweepStorage) (se : StoredEvent) :
    (retryStep now storageCode env tab so resp clearOk st se =
        .ok (⟨se, none, none, none, []⟩, st) ↔
      (now < se.lastAttempt + retryDelay ∧ se.tryImmediately = false)) ∧
    (se.tryImmediately = true →
      retryStep now storageCode env tab so resp clearOk st se ≠
        .ok (⟨se, none, none, none, []⟩, st)) := by
  have hiff : (se.lastAttempt + retryDelay - now > 0 ∧ se.tryImmediately = false) ↔
      (now < se.lastAttempt + retryDelay ∧ se.tryImmediately = false) := by
    constructor <;> exact fun h => ⟨by omega, h.2⟩
  have hmain : retryStep now storageCode env tab so resp clearOk st se =
      .ok (⟨se, none, none, none, []⟩, st) ↔
      (now < se.lastAttempt + retryDelay ∧ se.tryImmediately = false) := by
    constructor
    · intro h
      by_contra hneg
      have hg : ¬(se.lastAttempt + retryDelay - now > 0 ∧ se.tryImmediately = false) :=
        fun hh => hneg (hiff.mp hh)
      have hp := retryStep_processed now storageCode env tab so resp clearOk st se
        ⟨se, none, none, none, []⟩ st hg h
      exact Option.noConfusion hp.1
    · intro h
      exact retryStep_skip now storageCode env tab so resp clearOk st se (hiff.mpr h)
  refine ⟨hmain, fun htrue heq => ?_⟩
  rcases hmain.mp heq with ⟨_, hfalse⟩
  rw [htrue] at hfalse
  exact Bool.noConfusion hfalse

/-- Witness for C8 at a concrete due entry. -/
theorem retryStep_skip_iff_witness :
    (retryStep 1000 (some "P1") sampleEnv none (.success sampleSession) (.success true)
        true ⟨[sampleStored], "sess-1"⟩ sampleStored =
        .ok (⟨sampleStored, none, none, none, []⟩, ⟨[sampleStored], "sess-1"⟩) ↔
      (1000 < sampleStored.lastAttempt + retryDelay ∧
        sampleStored.tryImmediately = false)) ∧
    (sampleStored.tryImmediately = true →
      retryStep 1000 (some "P1") sampleEnv none (.success sampleSession) (.success true)
        true ⟨[sampleStored], "sess-1"⟩ sampleStored ≠
        .ok (⟨sampleStored, none, none, none, []⟩, ⟨[sampleStored], "sess-1"⟩)) :=
  retryStep_skip_iff 1000 (some "P1") sampleEnv none (.success sampleSession)
    (.success true) true ⟨[sampleStored], "sess-1"⟩ sampleStored

/-- Counterexample to C4 as stated: with the currently persisted participant
code `"P2"` and an entry recorded under `"P1"`, the sweep's fresh api
computes its identity headers from the *current* code — `createApi` gives
`getFromLocalStorage('participantCode')` precedence over the override — and
actually POSTs under it, so the retry does not use the entry's own recorded
participant code. -/
theorem retryStep_identity_counterexample :
    stepHeaderCode (retryStep 1000 (some "P2") sampleEnv (some true)
        (.success sampleSession) (.success true) true ⟨[sampleStored], "sess-1"⟩
        sampleStored) = some "P2" ∧
    sampleStored.participantCode = "P1" ∧
    stepPosted (retryStep 1000 (some "P2") sampleEnv (some true)
        (.success sampleSession) (.success true) true ⟨[sampleStored], "sess-1"⟩
        sampleStored) ≠ none ∧
    ("P2" : String) ≠ "P1" := by
  refine ⟨rfl, rfl, ?_, by decide⟩
  decide

/-- C4 amended: for every due entry the sweep processes to a result, the
identity headers are computed from the *currently persisted* participant code,
falling back to the entry's own recorded code only when none is persisted
(`getFromLocalStorage('participantCode') ?? storedEvent.participantCode ?? ''`);
and if the resulting identity is empty, the entry is marked `persisted = true`
(so it is dropped at the end of the sweep) without any network call being
made for it. -/
theorem retryStep_identity_amended (now : Int) (storageCode : Option String) (env : Env)
    (tab : Option Bool) (so : Maybe Session) (resp : Maybe Bool) (clearOk : Bool)
    (st : SweepStorage) (se : StoredEvent) (r : RetryStepResult) (st2 : SweepStorage)
    (hg : ¬(se.lastAttempt + retryDelay - now > 0 ∧ se.tryImmediately = false))
    (hr : retryStep now storageCode env tab so resp clearOk st se = .ok (r, st2)) :
    r.headerCode = some (createApiParticipantCode storageCode (some se.participantCode)) ∧
    (createApiParticipantCode storageCode (some se.participantCode) = "" →
      r = ⟨{ se with
              attempts := se.attempts + 1
              tryImmediately := false
              persisted := true },
            some (createApiParticipantCode storageCode (some se.participantCode)),
            none, none, []⟩ ∧ st2 = st) := by
  constructor
  · have h1 := retryStep_processed now storageCode env tab so resp clearOk st se r st2
      hg hr
    rw [h1.1, retryApi_participantCode]
  · intro hpc
    have hpc' : (retryApi storageCode tab st se).participantCode = "" := by
      rw [retryApi_participantCode]
      exact hpc
    have hd := retryStep_dropped now storageCode env tab so resp clearOk st se hg hpc'
    rw [hd] at hr
    injection hr with h
    injection h with h1 h2
    constructor
    · rw [← h1, retryApi_participantCode]
    · rw [h2]

/-- Witness for C4 amended: an orphan entry (recorded code empty, nothing
persisted) is dropped with no network call. -/
theorem retryStep_identity_amended_witness :
    (⟨{ orphanStored with
          attempts := orphanStored.attempts + 1
          tryImmediately := false
          persisted := true },
        some (createApiParticipantCode none (some orphanStored.participantCode)),
        none, none, []⟩ : RetryStepResult).headerCode =
      some (createApiParticipantCode none (some orphanStored.participantCode)) ∧
    (createApiParticipantCode none (some orphanStored.participantCode) = "" →
      (⟨{ orphanStored with
            attempts := orphanStored.attempts + 1
            tryImmediately := false
            persisted := true },
          some (createApiParticipantCode none (some orphanStored.participantCode)),
          none, none, []⟩ : RetryStepResult) =
        ⟨{ orphanStored with
            attempts := orphanStored.attempts + 1
            tryImmediately := false
            persisted := true },
          some (createApiParticipantCode none (some orphanStored.participantCode)),
          none, none, []⟩ ∧
      (⟨[orphanStored], ""⟩ : SweepStorage) = ⟨[orphanStored], ""⟩) :=
  retryStep_identity_amended 1000 none sampleEnv none (.success sampleSession)
    (.success true) true ⟨[orphanStored], ""⟩ orphanStored _ _ (by decide) rfl

/-- C6: the session identifier of an event is assigned by `postEvent` exactly
once, at the first submission attempt. For every `postEvent` call that
reaches its POST: if the input event already carries a session id, no
session-creation call is recorded and the POSTed event keeps that id
unchanged; if it carries none, the POSTed event's id is exactly the cached
session id left by `ensureSession` — the assignment — and when the envelope
is retained, the envelope written *before* the POST already wraps the event
with that same id (assignment precedes persistence and network). And for
every sweep iteration replaying a `StoredEvent` whose wrapped event already
carries a session id: the wrapped event is never mutated, no session-creation
call is issued, and the re-POSTed event carries the stored id unchanged. -/
theorem postEvent_session_assignment
    (s : ApiState) (env : Env) (e : Event) (retain : Bool) (so : Maybe Session)
    (saveOk : Bool) (s1 : ApiState) (ev : Event)
    (hp : postEventPrepare s env e retain so saveOk = (s1, .ready ev))
    (now : Int) (storageCode : Option String) (env2 : Env) (tab : Option Bool)
    (so2 : Maybe Session) (resp2 : Maybe Bool) (clearOk : Bool)
    (st : SweepStorage) (se : StoredEvent) (r : RetryStepResult) (st2 : SweepStorage)
    (hse : se.event.sessionUuid ≠ "")
    (hr : retryStep now storageCode env2 tab so2 resp2 clearOk st se = .ok (r, st2)) :
    (e.sessionUuid ≠ "" →
      s1.sessionCalls = s.sessionCalls ∧ ev.sessionUuid = e.sessionUuid) ∧
    (e.sessionUuid = "" → ev.sessionUuid = s1.sessionUuid) ∧
    (retain = true → saveOk = true →
      ∃ box : StoredEvent, s1.store = s.store ++ [box] ∧
        box.event.sessionUuid = ev.sessionUuid) ∧
    r.entry.event = se.event ∧
    r.sessionCalls = [] ∧
    (r.posted.elim True fun pev => pev.sessionUuid = se.event.sessionUuid) := by
  by_cases hcode : s.participantCode = ""
  · simp [postEventPrepare, hcode] at hp
  refine ⟨?_, ?_, ?_, ?_⟩
  · intro hne
    have h := postEventPrepare_no_session_creation s env e retain so saveOk hne
    rw [hp] at h
    simp only at h
    exact ⟨h.1, h.2 s1 ev rfl⟩
  · intro heq
    rcases hens : ensureSession s so with ⟨sE, rE⟩
    cases rE with
    | error er =>
      rw [postEventPrepare_of_session_error s env e retain so saveOk sE er hcode heq hens]
        at hp
      simp at hp
    | ok u =>
      rw [postEventPrepare_of_sessionUuid_eq s env e retain so saveOk sE u hcode heq hens]
        at hp
      have hids := (prepareTail_ready_ids _ _ _ _ _ _ _ hp).2
      rw [prepareTail_eq] at hp
      injection hp with h1 h2
      subst h1
      rw [hids]
      cases retain with
      | false => rfl
      | true => rfl
  · intro hret hsave
    subst hret
    subst hsave
    by_cases hse0 : e.sessionUuid = ""
    · rcases hens : ensureSession s so with ⟨sE, rE⟩
      cases rE with
      | error er =>
        rw [postEventPrepare_of_session_error s env e true so true sE er hcode hse0 hens]
          at hp
        simp at hp
      | ok u =>
        rw [postEventPrepare_of_sessionUuid_eq s env e true so true sE u hcode hse0 hens]
          at hp
        have hpres := ensureSession_preserves s so
        rw [hens] at hpres
        simp only at hpres
        have hids := (prepareTail_ready_ids _ _ _ _ _ _ _ hp).2
        rw [prepareTail_eq] at hp
        injection hp with h1 h2
        subst h1
        refine ⟨{ event := { enrichEvent s env e with sessionUuid := sE.sessionUuid }
                  apiUrl := sE.apiUrl
                  lastAttempt := env.now
                  persisted := false
                  attempts := 1
                  participantCode := sE.participantCode
                  tryImmediately := true }, ?_, ?_⟩
        · simp [storeEvent, saveStoredEvents, hpres.2.1]
        · rw [hids]
    · rw [postEventPrepare_of_sessionUuid_ne s env e true so true hcode hse0] at hp
      have hids := (prepareTail_ready_ids _ _ _ _ _ _ _ hp).2
      rw [prepareTail_eq] at hp
      injection hp with h1 h2
      subst h1
      refine ⟨{ event := enrichEvent s env e
                apiUrl := s.apiUrl
                lastAttempt := env.now
                persisted := false
                attempts := 1
                participantCode := s.participantCode
                tryImmediately := true }, ?_, ?_⟩
      · simp [storeEvent, saveStoredEvents]
      · rw [hids]
  · by_cases hg : se.lastAttempt + retryDelay - now > 0 ∧ se.tryImmediately = false
    · rw [retryStep_skip now storageCode env2 tab so2 resp2 clearOk st se hg] at hr
      injection hr with h
      injection h with h1 h2
      rw [← h1]
      exact ⟨rfl, rfl, trivial⟩
    · by_cases hpc : (retryApi storageCode tab st se).participantCode = ""
      · rw [retryStep_dropped now storageCode env2 tab so2 resp2 clearOk st se hg hpc]
          at hr
        injection hr with h
        injection h with h1 h2
        rw [← h1]
        exact ⟨rfl, rfl, trivial⟩
      · have hproc := retryStep_processed now storageCode env2 tab so2 resp2 clearOk
          st se r st2 hg hr
        obtain ⟨b, hres, hposted, hcalls, hpr⟩ := retryStep_posted now storageCode env2
          tab so2 resp2 clearOk st se r st2 hg hpc hr
        have hinner := postEvent_no_session_creation (retryApi storageCode tab st se)
          env2 se.event false so2 true resp2 clearOk hse
        refine ⟨hproc.2, ?_, ?_⟩
        · rw [hcalls, hinner.1]
          rfl
        · rw [hposted]
          exact hinner.2

/-- Witness for C6: a fresh event handed to the sample authenticated state
gets the cached session id `"sess-1"` assigned once, the retained envelope
already carries it, and the replayed sample entry re-POSTs its stored id
unchanged with no session-creation call. -/
theorem postEvent_session_assignment_witness :
    (freshEvent.sessionUuid ≠ "" →
      (postEventPrepare sampleState sampleEnv freshEvent true (.success sampleSession)
        true).1.sessionCalls = sampleState.sessionCalls ∧
      ({ type := "PAGE_VIEW", localUuid := "uuid-2", sessionUuid := "sess-1"
         url := "https://yt/home", context := some "ref", extensionVersion := "1.2.3"
         tabActive := some true } : Event).sessionUuid = freshEvent.sessionUuid) ∧
    (freshEvent.sessionUuid = "" →
      ({ type := "PAGE_VIEW", localUuid := "uuid-2", sessionUuid := "sess-1"
         url := "https://yt/home", context := some "ref", extensionVersion := "1.2.3"
         tabActive := some true } : Event).sessionUuid =
      (postEventPrepare sampleState sampleEnv freshEvent true (.success sampleSession)
        true).1.sessionUuid) ∧
    (true = true → true = true →
      ∃ box : StoredEvent,
        (postEventPrepare sampleState sampleEnv freshEvent true (.success sampleSession)
          true).1.store = sampleState.store ++ [box] ∧
        box.event.sessionUuid =
          ({ type := "PAGE_VIEW", localUuid := "uuid-2", sessionUuid := "sess-1"
             url := "https://yt/home", context := some "ref"
             extensionVersion := "1.2.3", tabActive := some true } : Event).sessionUuid) ∧
    ({ sampleStored with
        attempts := 2
        tryImmediately := false
        persisted := true } : StoredEvent).event = sampleStored.event ∧
    ([] : List (List (String × String))) = [] ∧
    ((some { type := "PAGE_VIEW", localUuid := "uuid-1", sessionUuid := "sess-1"
             url := "https://yt/home", context := some "ref"
             extensionVersion := "1.2.3", tabActive := none } : Option Event).elim True
      fun pev => pev.sessionUuid = sampleStored.event.sessionUuid) :=
  postEvent_session_assignment sampleState sampleEnv freshEvent true
    (.success sampleSession) true _ _ rfl 1000 (some "P1") sampleEnv none
    (.success sampleSession) (.success true) true ⟨[sampleStored], "sess-1"⟩
    sampleStored
    ⟨{ sampleStored with attempts := 2, tryImmediately := false, persisted := true },
      some "P1",
      some { type := "PAGE_VIEW", localUuid := "uuid-1", sessionUuid := "sess-1"
             url := "https://yt/home", context := some "ref"
             extensionVersion := "1.2.3", tabActive := none },
      some true, []⟩
    ⟨[], "sess-1"⟩ (by decide) rfl

/-- C7: after every completed sweep of the retry scheduler, the durable
queue contains no `StoredEvent` with `persisted = true` — the entries marked
`persisted` during the sweep are filtered out before the store is rewritten
(and if that final save fails internally, the store is emptied, which also
contains no such entry). -/
theorem retrySweep_no_persisted (now : Int) (storageCode : Option String) (env : Env)
    (tab : Option Bool) (so : StoredEvent → Maybe Session)
    (resp : StoredEvent → Maybe Bool) (clearOk : Bool) (finalSaveOk : Bool)
    (st : SweepStorage) (out : SweepStorage)
    (h : retryToPostStoredEvents now storageCode env tab so resp clearOk finalSaveOk st =
      .ok out) :
    (out.events.all fun e => !e.persisted) = true := by
  unfold retryToPostStoredEvents at h
  rcases hloop : retryLoop now storageCode env tab so resp clearOk st.events st
    with e | p
  · rw [hloop] at h
    exact Except.noConfusion h
  · rcases p with ⟨rs, stEnd⟩
    rw [hloop] at h
    injection h with h1
    rw [← h1]
    cases finalSaveOk with
    | false => rfl
    | true => exact all_filter_not_persisted _

/-- Witness for C7: a sweep whose only entry fails its re-POST completes with
that entry re-queued and not `persisted`. -/
theorem retrySweep_no_persisted_witness :
    ((⟨[{ sampleStored with
            attempts := 2
            tryImmediately := false
            lastAttempt := 1000 }], "sess-1"⟩ : SweepStorage).events.all
      fun e => !e.persisted) = true :=
  retrySweep_no_persisted 1000 (some "P1") sampleEnv none
    (fun _ => .success sampleSession) (fun _ => .failure "X" "m") true true
    ⟨[sampleStored], "sess-1"⟩
    ⟨[{ sampleStored with
          attempts := 2
          tryImmediately := false
          lastAttempt := 1000 }], "sess-1"⟩ rfl

/-- Counterexample to C3 as stated: `loadStoredEvents` has no `try`/`catch`,
so on a stored blob that is nonempty, not flagged as compressed, and not
valid JSON, the `JSON.parse` exception propagates to the caller instead of
the function returning the empty sequence. -/
theorem loadStoredEvents_malformed_counterexample :
    loadStoredEvents (some malformedBlob) none (fun _ => none) =
      .error "SyntaxError: Unexpected token" ∧
    loadStoredEvents (some malformedBlob) none (fun _ => none) ≠ .ok [] :=
  ⟨rfl, fun h => Except.noConfusion h⟩

/-- C3 amended: `load()` is exception-free and returns the empty sequence in
every *contained* case — the slot is absent, the stored string is empty, or
decompression yields null or an empty string — but when a nonempty text
reaches `JSON.parse` and parsing throws, that exception propagates to
`load()`'s caller (the failure is exactly the parse failure of the effective
text). -/
theorem loadStoredEvents_amended (dataStr : Option JsString) (lzFlag : Option String)
    (dec : JsString → Option JsString) (msg : String) :
    (loadStoredEvents dataStr lzFlag dec = .error msg ↔
      (effectiveJson dataStr lzFlag dec).elim False
        fun j => j.parse = .error msg) ∧
    (effectiveJson dataStr lzFlag dec = none →
      loadStoredEvents dataStr lzFlag dec = .ok []) := by
  cases dataStr with
  | none => simp [loadStoredEvents, effectiveJson]
  | some s =>
    cases he : s.isEmpty with
    | true => simp [loadStoredEvents, effectiveJson, he]
    | false =>
      rcases hj : (if lzFlag = some "true" then dec s else some s) with _ | j
      · simp [loadStoredEvents, effectiveJson, he, hj]
      · cases hje : j.isEmpty with
        | true => simp [loadStoredEvents, effectiveJson, he, hj, hje]
        | false =>
          simp only [loadStoredEvents, effectiveJson, he, hj, hje]
          rcases hparse : j.parse with e | l <;>
            simp [hparse, Except.map]

/-- Witness for C3 amended at the malformed sample blob. -/
theorem loadStoredEvents_amended_witness :
    (loadStoredEvents (some malformedBlob) none (fun _ => none) =
        .error "SyntaxError: Unexpected token" ↔
      (effectiveJson (some malformedBlob) none (fun _ => none)).elim False
        fun j => j.parse = .error "SyntaxError: Unexpected token") ∧
    (effectiveJson (some malformedBlob) none (fun _ => none) = none →
      loadStoredEvents (some malformedBlob) none (fun _ => none) = .ok []) :=
  loadStoredEvents_amended (some malformedBlob) none (fun _ => none)
    "SyntaxError: Unexpected token"

end Ytdpnl
